import Mathlib

/-!
Verification of the Amana-Chat repository against its specification.

The development shallowly embeds the chat client's state-reconciliation
logic (src/app/components/Chat.tsx), the AI reply proxy route
(src/app/api/ai-reply/route.ts) and the token issuer route
(src/app/api/ably-token/route.ts).  JavaScript strings become Lean
Strings, JavaScript truthiness and the associated short-circuit
operators are modelled explicitly, and every external effect (the
messaging backend, fetch, JSON.parse, Math.random, Date.now) is an
explicit oracle argument so the handlers become pure functions.
-/

namespace AmanaChat

/-! ## JavaScript string and value primitives -/

/-- Whitespace characters recognised by JavaScript String.prototype.trim
(the ASCII subset that can plausibly occur in chat input and HTTP bodies). -/
def isJsWhitespace (c : Char) : Bool :=
  c == ' ' || c == '\t' || c == '\n' || c == '\r' || c == '\x0b' || c == '\x0c'

/-- Model of JavaScript s.trim(): drop leading and trailing whitespace. -/
def jsTrim (s : String) : String :=
  String.mk (((s.data.dropWhile isJsWhitespace).reverse.dropWhile isJsWhitespace).reverse)

/-- Model of the JavaScript idiom v || d for an optionally absent string:
undefined, null and the empty string are falsy and select the default. -/
def jsOrStr (v : Option String) (d : String) : String :=
  match v with
  | some s => if s = "" then d else s
  | none => d

/-- Model of the JavaScript idiom v || d for an optionally absent number:
undefined, null and 0 are falsy and select the default. -/
def jsOrNat (v : Option Nat) (d : Nat) : Nat :=
  match v with
  | some n => if n = 0 then d else n
  | none => d

/-! ## Presence roster (Chat.tsx, presence.subscribe handlers)

A presence member carries a client identifier and the optional
username payload the peer supplied on enter. -/

structure PresenceMember where
  clientId : String
  data : Option String
deriving DecidableEq, Repr

/-- True when the roster already contains an entry with the given
client identifier (the prev.find(m => m.clientId === member.clientId)
test of the enter handler, used for its truthiness only). -/
def hasId (r : List PresenceMember) (id : String) : Bool :=
  r.any (fun x => x.clientId == id)

/-- The enter handler (Chat.tsx lines 119-129): append the member only
when no entry with its client identifier is present, else return the
roster unchanged. -/
def handleEnter (prev : List PresenceMember) (member : PresenceMember) : List PresenceMember :=
  if hasId prev member.clientId then prev else prev ++ [member]

/-- The leave handler (Chat.tsx lines 131-135): remove every entry
whose client identifier equals the leaving member's. -/
def handleLeave (prev : List PresenceMember) (member : PresenceMember) : List PresenceMember :=
  prev.filter (fun x => !(x.clientId == member.clientId))

/-- A presence event as delivered by the backend. -/
inductive PEvent where
  | enter (member : PresenceMember)
  | leave (member : PresenceMember)
deriving DecidableEq, Repr

/-- Dispatch one presence event to the corresponding handler. -/
def applyPresenceEvent (r : List PresenceMember) : PEvent → List PresenceMember
  | .enter m => handleEnter r m
  | .leave m => handleLeave r m

/-- Process a sequence of presence events in delivery order. -/
def applyPresenceEvents (r : List PresenceMember) (es : List PEvent) : List PresenceMember :=
  es.foldl applyPresenceEvent r

/-- The client identifier an event concerns. -/
def eventClientId : PEvent → String
  | .enter m => m.clientId
  | .leave m => m.clientId

/-- Whether an event is an enter event. -/
def isEnterEvent : PEvent → Bool
  | .enter _ => true
  | .leave _ => false

/-- The kind (true = enter, false = leave) of the most recent event in
the sequence that concerns the given client identifier, if any. -/
def lastEventKind (id : String) : List PEvent → Option Bool
  | [] => none
  | e :: rest =>
    match lastEventKind id rest with
    | some b => some b
    | none => if eventClientId e == id then some (isEnterEvent e) else none

/-- Number of roster entries carrying the given client identifier. -/
def countId (id : String) (r : List PresenceMember) : Nat :=
  r.countP (fun x => x.clientId == id)

/-! ## Chat messages (Chat.tsx, channel.subscribe handler and history load)

A raw event as delivered by the backend, together with the values the
environment would supply for the fallback branches of the handler
(Date.now()-Math.random() synthesised identifier, Date.now() timestamp).
The same shape covers live message events and history items. -/

structure RawEvent where
  id : Option String
  fallbackId : String
  text : String
  sender : Option String
  timestamp : Option Nat
  fallbackTs : Nat
deriving DecidableEq, Repr

/-- A reconstructed chat message as stored in the local list. -/
structure Message where
  id : String
  text : String
  sender : String
  timestamp : Nat
deriving DecidableEq, Repr

/-- Reconstruction of a Message from a delivered event (Chat.tsx lines
99-104 and 146-151): identifier from the event or the synthesised
fallback, sender defaulting to "Unknown", timestamp defaulting to now. -/
def reconstructMessage (e : RawEvent) : Message :=
  { id := jsOrStr e.id e.fallbackId
    text := e.text
    sender := jsOrStr e.sender "Unknown"
    timestamp := jsOrNat e.timestamp e.fallbackTs }

/-- The message-event handler (Chat.tsx lines 98-107): append the
reconstructed message to the current list. -/
def handleIncomingMessage (msgs : List Message) (e : RawEvent) : List Message :=
  msgs ++ [reconstructMessage e]

/-- Process a sequence of delivered message events in arrival order. -/
def processMessageEvents (msgs : List Message) (es : List RawEvent) : List Message :=
  es.foldl handleIncomingMessage msgs

/-- The history load (Chat.tsx lines 140-154): when the fetched page is
non-empty, reverse it (the backend returns newest first) and replace the
local list with the reconstructed messages; otherwise leave the list
untouched. -/
def loadHistory (prev : List Message) (items : List RawEvent) : List Message :=
  if items.length = 0 then prev
  else (items.reverse).map reconstructMessage

/-! ## Send handler (Chat.tsx, handleSendMessage)

The handler's external effects are recorded as an action trace; the
returned string is the final content of the input field.  Oracles:
whether the user-message publish rejects, the outcome of the AI proxy
call, and whether the AI-reply publish rejects (the latter is caught
and logged, so it cannot influence the result). -/

inductive SendAction where
  | publishUser (text sender : String)
  | callAI (text : String)
  | publishAI (text : String)
  | alertUser
deriving DecidableEq, Repr

/-- Outcome of the fetch to /api/ai-reply as observed by the client:
the fetch threw, the response was not ok, or it was ok with the parsed
reply field (absent when the body had no reply property). -/
inductive AiOutcome where
  | fetchError
  | notOk
  | okReply (reply : Option String)
deriving DecidableEq, Repr

/-- Recogniser for the user-message publish action. -/
def isPublishUser : SendAction → Bool
  | .publishUser _ _ => true
  | _ => false

/-- Recogniser for the AI proxy invocation action. -/
def isCallAI : SendAction → Bool
  | .callAI _ => true
  | _ => false

/-- The send handler (Chat.tsx lines 188-236).  Returns the trace of
attempted external effects and the final content of the input field. -/
def handleSendMessage (messageText username : String) (isConnected channelAvailable : Bool)
    (publishFails : Bool) (ai : AiOutcome) (publishAiFails : Bool) :
    List SendAction × String :=
  if jsTrim messageText = "" ∨ channelAvailable = false ∨ isConnected = false then
    ([], messageText)
  else
    let userMessage := jsTrim messageText
    if publishFails then
      ([.publishUser userMessage username, .alertUser], userMessage)
    else
      match ai with
      | .fetchError => ([.publishUser userMessage username, .callAI userMessage], "")
      | .notOk => ([.publishUser userMessage username, .callAI userMessage], "")
      | .okReply none => ([.publishUser userMessage username, .callAI userMessage], "")
      | .okReply (some reply) =>
        if reply = "" ∨ channelAvailable = false then
          ([.publishUser userMessage username, .callAI userMessage], "")
        else
          ([.publishUser userMessage username, .callAI userMessage, .publishAI reply], "")

/-! ## JSON values and JavaScript expression semantics (ai-reply route) -/

/-- Parsed JSON data. -/
inductive Json where
  | null
  | bool (b : Bool)
  | num (n : Int)
  | str (s : String)
  | arr (elems : List Json)
  | obj (fields : List (String × Json))

/-- A JavaScript expression value: undefined or a JSON value. -/
inductive JsVal where
  | undefined
  | json (j : Json)

/-- JavaScript truthiness. -/
def truthy : JsVal → Bool
  | .undefined => false
  | .json .null => false
  | .json (.bool b) => b
  | .json (.num n) => n != 0
  | .json (.str s) => s != ""
  | .json (.arr _) => true
  | .json (.obj _) => true

/-- Model of JavaScript a || b: a when truthy, else b. -/
def jsOr (a b : JsVal) : JsVal := if truthy a then a else b

/-- Model of JavaScript a && b: b when a is truthy, else a. -/
def jsAnd (a b : JsVal) : JsVal := if truthy a then b else a

/-- First field of an object with the given key, as a JsVal. -/
def lookupField (fields : List (String × Json)) (key : String) : JsVal :=
  match fields with
  | [] => .undefined
  | (k, v) :: rest => if k = key then .json v else lookupField rest key

/-- Property access v.key.  Only objects have the probed properties;
every other base yields undefined.  (Access on null would throw, but
the route dereferences a possibly-null base only at data.reply, which
the embedding of the route handles separately.) -/
def getProp (v : JsVal) (key : String) : JsVal :=
  match v with
  | .json (.obj fs) => lookupField fs key
  | _ => .undefined

/-- Index access v[i]: array element, character of a string, or the
numeric-string key of an object; undefined otherwise. -/
def jsIndex (v : JsVal) (i : Nat) : JsVal :=
  match v with
  | .json (.arr xs) =>
    match xs.get? i with
    | some x => .json x
    | none => .undefined
  | .json (.str s) =>
    match s.data.get? i with
    | some c => .json (.str (String.mk [c]))
    | none => .undefined
  | .json (.obj fs) => lookupField fs (toString i)
  | _ => .undefined

/-- The candidate expressions of the reply-extraction chain
(route.ts lines 154-167), in source order. -/
def replyCandidates (data : Json) : List JsVal :=
  let d := JsVal.json data
  [ getProp d "reply"
  , getProp d "message"
  , getProp d "text"
  , getProp d "response"
  , getProp d "content"
  , getProp d "answer"
  , getProp d "output"
  , getProp d "rawText"
  , jsAnd (jsAnd (jsAnd (getProp d "choices") (jsIndex (getProp d "choices") 0))
      (getProp (jsIndex (getProp d "choices") 0) "message"))
      (getProp (getProp (jsIndex (getProp d "choices") 0) "message") "content")
  , jsAnd (getProp d "data")
      (jsOr (jsOr (getProp (getProp d "data") "message") (getProp (getProp d "data") "reply"))
        (getProp (getProp d "data") "text"))
  , jsAnd (getProp d "result")
      (jsOr (jsOr (getProp (getProp d "result") "message") (getProp (getProp d "result") "text"))
        (getProp (getProp d "result") "reply"))
  , match data with
    | .str s => .json (.str s)
    | _ => .json .null ]

/-- The reply-extraction chain: the candidates joined by ||, ending in
|| null. -/
def extractReply (data : Json) : JsVal :=
  (replyCandidates data).foldr (fun a acc => jsOr a acc) (.json .null)

/-- Response of the ai-reply route: an HTTP status and the single
string field of the JSON body. -/
structure AiRouteResponse where
  status : Nat
  reply : String
deriving DecidableEq, Repr

/-- The message field of the request body as destructured by the route. -/
inductive ReqMessage where
  | missing
  | nonString
  | str (s : String)
deriving DecidableEq, Repr

/-- The request body: malformed JSON (request.json() throws) or a
parsed object with its message field. -/
inductive ReqBody where
  | malformed
  | valid (message : ReqMessage)
deriving DecidableEq, Repr

/-- Outcome of the outbound fetch to the completion endpoint: the
30-second AbortController timer fired, the fetch or the body read
threw, or a response with the given status whose body was read fully. -/
inductive Upstream where
  | timeout
  | netError
  | resp (status : Nat) (body : String)
deriving DecidableEq, Repr

def invalidRequestMsg : String := "Invalid request"
def unavailableMsg : String := "AI Assistant is currently unavailable. Please try again later."
def authFailedMsg : String := "AI service authentication failed. Please check API configuration."
def rateLimitMsg : String := "AI service is rate-limited. Please try again in a moment."
def serverIssuesMsg : String := "AI service is experiencing issues. Please try again later."
def emptyResponseMsg : String := "AI Assistant returned an empty response. Please try again."
def timeoutMsg : String := "Sorry, the request took too long. Please try again."
def networkUnreachableMsg : String :=
  "AI service is unreachable. Please check your network connection or API configuration."

/-- Mock responses (route.ts lines 15-22); the random index is an
oracle reduced modulo the list length. -/
def getMockResponse (message : String) (idx : Nat) : String :=
  let responses :=
    [ "I understand you said: \"" ++ message ++ "\". How can I help you further?"
    , "Thanks for your message: \"" ++ message ++ "\". I'm here to assist you!"
    , "You mentioned: \"" ++ message ++ "\". Let me help you with that." ]
  responses.getD (idx % 3) ""

/-- Fallback message chosen for a non-ok upstream status
(route.ts lines 111-119). -/
def httpErrorMessage (status : Nat) : String :=
  if status = 401 ∨ status = 403 then authFailedMsg
  else if status = 429 then rateLimitMsg
  else if 500 ≤ status then serverIssuesMsg
  else unavailableMsg

/-- The parsed data the extraction operates on: the JSON.parse result,
or the rawText wrapper built when parsing threw (route.ts line 149). -/
def parsedData (parsed : Option Json) (body : String) : Json :=
  match parsed with
  | some j => j
  | none => .obj [("rawText", .str body)]

/-- Reply extraction and the final response for successfully read,
non-blank upstream data (route.ts lines 154-188).  A null data value
makes the first property access (data.reply, line 155) throw a
TypeError; that is caught by the fetch-level catch of lines 189-221,
whose non-AbortError arm answers 200 with the network-unreachable
message. -/
def extractAndRespond (data : Json) : AiRouteResponse :=
  match data with
  | .null => ⟨200, networkUnreachableMsg⟩
  | _ =>
    match extractReply data with
    | .json (.str rs) =>
      if jsTrim rs = "" then ⟨200, unavailableMsg⟩ else ⟨200, jsTrim rs⟩
    | _ => ⟨200, unavailableMsg⟩

/-- The response computed from the upstream outcome
(route.ts lines 68-221). -/
def upstreamRespond (up : Upstream) (parsed : Option Json) : AiRouteResponse :=
  match up with
  | .timeout => ⟨200, timeoutMsg⟩
  | .netError => ⟨200, networkUnreachableMsg⟩
  | .resp status body =>
    if status < 200 ∨ 299 < status then ⟨200, httpErrorMessage status⟩
    else if jsTrim body = "" then ⟨200, emptyResponseMsg⟩
    else extractAndRespond (parsedData parsed body)

namespace AiReply

/-- The POST handler of src/app/api/ai-reply/route.ts.  parsed is the
outcome of JSON.parse on the upstream body (none when parsing throws);
it is consulted only on the ok-status, non-blank-body path. -/
def POST (req : ReqBody) (aiApiEnabled : Bool) (mockIdx : Nat) (up : Upstream)
    (parsed : Option Json) : AiRouteResponse :=
  match req with
  | .malformed => ⟨500, unavailableMsg⟩
  | .valid m =>
    match m with
    | .missing => ⟨400, invalidRequestMsg⟩
    | .nonString => ⟨400, invalidRequestMsg⟩
    | .str s =>
      if jsTrim s = "" then ⟨400, invalidRequestMsg⟩
      else if aiApiEnabled = false then ⟨200, getMockResponse (jsTrim s) mockIdx⟩
      else upstreamRespond up parsed

end AiReply

/-! ## Token issuer (ably-token route) -/

/-- The parameters the route hands to the credential-minting primitive. -/
structure TokenParams where
  clientId : String
  capability : List (String × List String)
deriving DecidableEq, Repr

/-- Body of the token route's response. -/
inductive TokenRouteBody (α : Type) where
  | error (msg : String)
  | token (t : α)
deriving DecidableEq, Repr

/-- Result of the token route: status, body, and the parameters the
minting call was invoked with (none when it was never invoked). -/
structure GetTokenResult (α : Type) where
  status : Nat
  body : TokenRouteBody α
  mintedWith : Option TokenParams
deriving DecidableEq, Repr

/-- The token parameters the route constructs (route.ts lines 37-43):
the query clientId defaulting to "anon", and the fixed capability set
on the single chat channel. -/
def routeTokenParams (clientIdParam : Option String) : TokenParams :=
  { clientId := jsOrStr clientIdParam "anon"
    capability := [("chat:general", ["subscribe", "publish", "presence", "history"])] }

namespace AblyToken

/-- The GET handler of src/app/api/ably-token/route.ts.  mint is the
vendor credential-minting primitive (Ably.Rest construction plus
auth.createTokenRequest); an exception from it, including the SDK's
internal request timeout, is the error case. -/
def GET {α : Type} (apiKey : Option String) (clientIdParam : Option String)
    (mint : TokenParams → Except Unit α) : GetTokenResult α :=
  match apiKey with
  | none => ⟨500, .error "Ably API Key is not configured", none⟩
  | some _ =>
    let params := routeTokenParams clientIdParam
    match mint params with
    | .ok t => ⟨200, .token t, some params⟩
    | .error _ => ⟨500, .error "Failed to generate token", some params⟩

end AblyToken

/-! ## Supporting lemmas -/

theorem countId_append (id : String) (a b : List PresenceMember) :
    countId id (a ++ b) = countId id a + countId id b :=
  List.countP_append _ a b

theorem hasId_iff_countId_pos (r : List PresenceMember) (id : String) :
    hasId r id = true ↔ 0 < countId id r := by
  simp [hasId, countId, List.any_eq_true, List.countP_pos_iff]

theorem countId_handleEnter_self (id : String) (r : List PresenceMember) (m : PresenceMember)
    (h : m.clientId = id) (hb : countId id r ≤ 1) :
    countId id (handleEnter r m) = 1 := by
  unfold handleEnter
  by_cases hp : hasId r m.clientId
  · rw [if_pos hp]
    subst h
    have := (hasId_iff_countId_pos r m.clientId).mp hp
    omega
  · rw [if_neg hp]
    rw [countId_append]
    have h0 : countId id r = 0 := by
      subst h
      by_contra hne
      exact hp ((hasId_iff_countId_pos r m.clientId).mpr (Nat.pos_of_ne_zero hne))
    rw [h0]
    simp [countId, List.countP_cons, h]

theorem countId_handleEnter_ne (id : String) (r : List PresenceMember) (m : PresenceMember)
    (h : ¬m.clientId = id) :
    countId id (handleEnter r m) = countId id r := by
  unfold handleEnter
  by_cases hp : hasId r m.clientId
  · rw [if_pos hp]
  · rw [if_neg hp, countId_append]
    simp [countId, List.countP_cons, h]

theorem countId_handleLeave_self (id : String) (r : List PresenceMember) (m : PresenceMember)
    (h : m.clientId = id) :
    countId id (handleLeave r m) = 0 := by
  subst h
  simp only [countId, handleLeave, List.countP_eq_zero]
  intro a ha
  have := (List.mem_filter.mp ha).2
  simpa using this

theorem countId_handleLeave_ne (id : String) (r : List PresenceMember) (m : PresenceMember)
    (h : ¬m.clientId = id) :
    countId id (handleLeave r m) = countId id r := by
  simp only [countId, handleLeave, List.countP_filter]
  apply List.countP_congr
  intro a _
  by_cases ha : a.clientId = id
  · have hne : ¬a.clientId = m.clientId := by
      intro hc; exact h (hc ▸ ha ▸ rfl)
    have hne2 : ¬id = m.clientId := fun hc => hne (ha.trans hc)
    simp [ha, hne2]
  · simp [ha]

theorem countId_applyPresenceEvent_le (r : List PresenceMember) (e : PEvent)
    (hb : ∀ j, countId j r ≤ 1) : ∀ j, countId j (applyPresenceEvent r e) ≤ 1 := by
  intro j
  cases e with
  | enter m =>
    by_cases h : m.clientId = j
    · rw [show applyPresenceEvent r (.enter m) = handleEnter r m from rfl,
        countId_handleEnter_self j r m h (hb j)]
    · rw [show applyPresenceEvent r (.enter m) = handleEnter r m from rfl,
        countId_handleEnter_ne j r m h]
      exact hb j
  | leave m =>
    by_cases h : m.clientId = j
    · rw [show applyPresenceEvent r (.leave m) = handleLeave r m from rfl,
        countId_handleLeave_self j r m h]
      omega
    · rw [show applyPresenceEvent r (.leave m) = handleLeave r m from rfl,
        countId_handleLeave_ne j r m h]
      exact hb j

theorem countId_applyPresenceEvents (es : List PEvent) :
    ∀ (r : List PresenceMember), (∀ j, countId j r ≤ 1) → ∀ id,
      countId id (applyPresenceEvents r es) =
        (match lastEventKind id es with
          | some true => 1
          | some false => 0
          | none => countId id r) := by
  induction es with
  | nil => intro r _ id; simp [applyPresenceEvents, lastEventKind]
  | cons e rest ih =>
    intro r hb id
    have hstep : applyPresenceEvents r (e :: rest) =
        applyPresenceEvents (applyPresenceEvent r e) rest := rfl
    rw [hstep, ih _ (countId_applyPresenceEvent_le r e hb) id]
    cases hlast : lastEventKind id rest with
    | some b =>
      simp only [lastEventKind, hlast]
      cases b <;> rfl
    | none =>
      simp only [lastEventKind, hlast]
      by_cases hc : eventClientId e == id
      · rw [if_pos hc]
        have hceq : eventClientId e = id := by simpa using hc
        cases e with
        | enter m =>
          simp only [isEnterEvent]
          exact countId_handleEnter_self id r m (by simpa [eventClientId] using hceq) (hb id)
        | leave m =>
          simp only [isEnterEvent]
          exact countId_handleLeave_self id r m (by simpa [eventClientId] using hceq)
      · rw [if_neg hc]
        have hcne : ¬eventClientId e = id := by simpa using hc
        cases e with
        | enter m => exact countId_handleEnter_ne id r m (by simpa [eventClientId] using hcne)
        | leave m => exact countId_handleLeave_ne id r m (by simpa [eventClientId] using hcne)

theorem jsTrim_ne_empty_imp (s : String) (h : jsTrim s ≠ "") : s ≠ "" := by
  intro he
  apply h
  rw [he]
  rfl

theorem httpErrorMessage_server (st : Nat) (h : 500 ≤ st) :
    httpErrorMessage st = serverIssuesMsg := by
  unfold httpErrorMessage
  rw [if_neg (by omega), if_neg (by omega), if_pos h]

theorem httpErrorMessage_generic (st : Nat) (h1 : st ≠ 401) (h2 : st ≠ 403) (h3 : st ≠ 429)
    (h4 : st < 500) : httpErrorMessage st = unavailableMsg := by
  unfold httpErrorMessage
  rw [if_neg (by omega), if_neg (by omega), if_neg (by omega)]

theorem extractReply_rawText (b : String) (hb : b ≠ "") :
    extractReply (.obj [("rawText", .str b)]) = .json (.str b) := by
  simp [extractReply, replyCandidates, getProp, lookupField, jsOr, jsAnd, jsIndex, truthy, hb]

theorem extractAndRespond_ne_null (data : Json) (hd : data ≠ Json.null) :
    extractAndRespond data =
      (match extractReply data with
        | .json (.str rs) =>
          if jsTrim rs = "" then ⟨200, unavailableMsg⟩ else ⟨200, jsTrim rs⟩
        | _ => ⟨200, unavailableMsg⟩) := by
  cases data with
  | null => exact absurd rfl hd
  | bool b => rfl
  | num n => rfl
  | str s => rfl
  | arr xs => rfl
  | obj fs => rfl

theorem extractAndRespond_acceptable (data : Json) (rs : String)
    (hv : extractReply data = .json (.str rs)) (hrs : jsTrim rs ≠ "") :
    extractAndRespond data = ⟨200, jsTrim rs⟩ := by
  have hd : data ≠ Json.null := by
    intro h
    subst h
    rw [show extractReply Json.null = JsVal.json Json.null from rfl] at hv
    cases hv
  rw [extractAndRespond_ne_null data hd, hv]
  show (if jsTrim rs = "" then (⟨200, unavailableMsg⟩ : AiRouteResponse)
    else ⟨200, jsTrim rs⟩) = ⟨200, jsTrim rs⟩
  rw [if_neg hrs]

/-- Claim C1: for every sequence of presence enter/leave events applied
by the handlers to an initially empty roster, the roster contains
exactly one entry per client identifier whose most recent event was
enter and zero entries for an identifier whose most recent event was
leave; and an enter event for an already-present client identifier
leaves the roster unchanged. -/
theorem claim_c1_presence_roster :
    (∀ (es : List PEvent) (id : String),
        countId id (applyPresenceEvents [] es) =
          if lastEventKind id es = some true then 1 else 0)
    ∧ (∀ (r : List PresenceMember) (m : PresenceMember),
        hasId r m.clientId = true → handleEnter r m = r) := by
  constructor
  · intro es id
    have h := countId_applyPresenceEvents es [] (by intro j; simp [countId]) id
    rw [h]
    cases hl : lastEventKind id es with
    | none => simp [countId]
    | some b => cases b <;> simp
  · intro r m h
    unfold handleEnter
    rw [if_pos h]

/-- Witness for C1 at a concrete event sequence and a concrete
already-present re-enter. -/
theorem claim_c1_presence_roster_witness :
    countId "a" (applyPresenceEvents []
      [PEvent.enter ⟨"a", none⟩, PEvent.enter ⟨"a", some "x"⟩, PEvent.leave ⟨"b", none⟩]) = 1
    ∧ handleEnter [⟨"a", none⟩] ⟨"a", some "y"⟩ = [⟨"a", none⟩] := by
  constructor
  · rw [claim_c1_presence_roster.1]
    decide
  · exact claim_c1_presence_roster.2 _ _ (by decide)

/-- Claim C2: when the trimmed text is non-empty, the channel handle is
available and the session is connected, the send handler's first
external action is the publish of exactly one user message carrying the
trimmed text and the current display name, every AI-proxy invocation in
the trace carries exactly the trimmed text, and when the publish
succeeds the AI proxy is invoked with it; otherwise the handler is a
no-op. -/
theorem claim_c2_send_message (text user : String) (conn chan pf paf : Bool) (ai : AiOutcome) :
    (jsTrim text ≠ "" → chan = true → conn = true →
      ((handleSendMessage text user conn chan pf ai paf).1.head? =
          some (.publishUser (jsTrim text) user)
        ∧ (handleSendMessage text user conn chan pf ai paf).1.countP isPublishUser = 1
        ∧ (∀ s, SendAction.callAI s ∈ (handleSendMessage text user conn chan pf ai paf).1 →
            s = jsTrim text)
        ∧ (pf = false →
            SendAction.callAI (jsTrim text) ∈ (handleSendMessage text user conn chan pf ai paf).1)))
    ∧ ((jsTrim text = "" ∨ chan = false ∨ conn = false) →
        handleSendMessage text user conn chan pf ai paf = ([], text)) := by
  constructor
  · intro ht hchan hconn
    subst hchan; subst hconn
    have hg : ¬(jsTrim text = "" ∨ (true : Bool) = false ∨ (true : Bool) = false) := by
      simp [ht]
    simp only [handleSendMessage, if_neg hg]
    cases pf with
    | true =>
      refine ⟨rfl, by simp [List.countP_cons, isPublishUser], ?_, ?_⟩
      · intro s hs
        simp at hs
      · intro hpf
        cases hpf
    | false =>
      cases ai with
      | fetchError =>
        refine ⟨rfl, by simp [List.countP_cons, isPublishUser, isCallAI], ?_, fun _ => by simp⟩
        intro s hs
        simpa using hs
      | notOk =>
        refine ⟨rfl, by simp [List.countP_cons, isPublishUser, isCallAI], ?_, fun _ => by simp⟩
        intro s hs
        simpa using hs
      | okReply r =>
        cases r with
        | none =>
          refine ⟨rfl, by simp [List.countP_cons, isPublishUser, isCallAI], ?_, fun _ => by simp⟩
          intro s hs
          simpa using hs
        | some reply =>
          by_cases hr : reply = "" ∨ (true : Bool) = false
          · simp only [if_pos hr]
            refine ⟨rfl, by simp [List.countP_cons, isPublishUser, isCallAI], ?_, fun _ => by simp⟩
            intro s hs
            simpa using hs
          · simp only [if_neg hr]
            refine ⟨rfl, by simp [List.countP_cons, isPublishUser, isCallAI], ?_, fun _ => by simp⟩
            intro s hs
            simpa using hs
  · intro h
    simp only [handleSendMessage, if_pos h]

/-- Witness for C2 at a concrete non-empty input with the guard
hypotheses discharged. -/
theorem claim_c2_send_message_witness :
    (handleSendMessage "hi" "u" true true false AiOutcome.notOk false).1.head? =
      some (SendAction.publishUser "hi" "u") := by
  have h := (claim_c2_send_message "hi" "u" true true false false AiOutcome.notOk).1
    (by decide) rfl rfl
  exact h.1

/-- Counterexample to claim C7 as stated: delivering two message events
that carry the same identifier leaves the local list with two entries
the UI cannot distinguish by identifier (the handler performs no
de-duplication). -/
theorem claim_c7_counterexample :
    ¬ ((processMessageEvents []
        [⟨some "a", "f", "t", some "s", some 1, 0⟩,
         ⟨some "a", "f", "t", some "s", some 1, 0⟩]).map Message.id).Nodup := by
  decide

/-- Claim C7 (amended): the message handler appends each delivered
event's reconstructed message in arrival order without mutating or
removing prior entries, and the identifier-uniqueness invariant holds
exactly when the prior entries' and delivered events' identifiers are
pairwise distinct — the code performs no de-duplication. -/
theorem claim_c7_message_append :
    (∀ (msgs : List Message) (es : List RawEvent),
        processMessageEvents msgs es = msgs ++ es.map reconstructMessage)
    ∧ (∀ (msgs : List Message) (es : List RawEvent),
        (msgs.map Message.id ++ (es.map reconstructMessage).map Message.id).Nodup →
          ((processMessageEvents msgs es).map Message.id).Nodup) := by
  have happ : ∀ (es : List RawEvent) (msgs : List Message),
      processMessageEvents msgs es = msgs ++ es.map reconstructMessage := by
    intro es
    induction es with
    | nil => intro msgs; simp [processMessageEvents]
    | cons e rest ih =>
      intro msgs
      have hstep : processMessageEvents msgs (e :: rest) =
          processMessageEvents (handleIncomingMessage msgs e) rest := rfl
      rw [hstep, ih, handleIncomingMessage]
      simp
  constructor
  · intro msgs es
    exact happ es msgs
  · intro msgs es h
    rw [happ es msgs, List.map_append]
    exact h

/-- Witness for C7 (amended) at a concrete distinct-identifier input. -/
theorem claim_c7_message_append_witness :
    ((processMessageEvents [⟨"a", "t", "s", 1⟩]
        [⟨some "b", "f", "u", some "v", some 2, 0⟩]).map Message.id).Nodup := by
  exact claim_c7_message_append.2 _ _ (by decide)

/-- Counterexample to claim C8 as stated: when the history fetch
returns zero items and the local list is non-empty, the list is not
replaced with the (empty) result. -/
theorem claim_c8_counterexample :
    loadHistory [⟨"a", "t", "s", 1⟩] [] ≠ ([] : List Message) := by
  decide

/-- Claim C8 (amended): when the history fetch returns at least one
item the local list is replaced by the reconstructed items in exactly
reversed order with none dropped; when it returns zero items the list
is left unchanged rather than replaced. -/
theorem claim_c8_history_order (prev : List Message) (items : List RawEvent) :
    loadHistory prev items =
      (if items.length = 0 then prev else (items.map reconstructMessage).reverse)
    ∧ (items.length ≠ 0 → (loadHistory prev items).length = items.length) := by
  constructor
  · unfold loadHistory
    by_cases h : items.length = 0
    · simp [h]
    · simp [h, List.map_reverse]
  · intro h
    unfold loadHistory
    rw [if_neg h]
    simp

/-- Witness for C8 (amended) at a concrete one-item fetch. -/
theorem claim_c8_history_order_witness :
    (loadHistory [] [⟨some "a", "f", "t", some "s", some 1, 0⟩]).length = 1 := by
  exact (claim_c8_history_order [] _).2 (by decide)

/-- Counterexample to claim C9 as stated: when the user typed text with
trailing whitespace and the publish fails, the input field receives the
trimmed text, not the typed text. -/
theorem claim_c9_counterexample :
    (handleSendMessage "hi " "u" true true true AiOutcome.notOk false).2 = "hi"
    ∧ ("hi" : String) ≠ "hi " := by
  constructor
  · decide
  · decide

/-- Claim C9 (amended): when the user-message publish fails, the
trimmed typed text is restored to the input and a blocking notice is
surfaced, with no AI invocation; when the AI call or the AI-reply
publish fails, no notice is shown, the input stays cleared, the result
does not depend on the AI-publish failure, and neither the user publish
nor the AI call is retried. -/
theorem claim_c9_send_failures (text user : String) (ai : AiOutcome) (paf : Bool)
    (ht : jsTrim text ≠ "") :
    handleSendMessage text user true true true ai paf =
      ([.publishUser (jsTrim text) user, .alertUser], jsTrim text)
    ∧ SendAction.alertUser ∉ (handleSendMessage text user true true false ai paf).1
    ∧ (handleSendMessage text user true true false ai paf).2 = ""
    ∧ (∀ b₁ b₂, handleSendMessage text user true true false ai b₁ =
        handleSendMessage text user true true false ai b₂)
    ∧ (handleSendMessage text user true true false ai paf).1.countP isPublishUser = 1
    ∧ (handleSendMessage text user true true false ai paf).1.countP isCallAI = 1 := by
  refine ⟨?_, ?_, ?_, fun b₁ b₂ => rfl, ?_, ?_⟩
  · simp [handleSendMessage, ht]
  · cases ai with
    | fetchError => simp [handleSendMessage, ht]
    | notOk => simp [handleSendMessage, ht]
    | okReply r =>
      cases r with
      | none => simp [handleSendMessage, ht]
      | some reply =>
        by_cases hr : reply = "" <;> simp [handleSendMessage, ht, hr]
  · cases ai with
    | fetchError => simp [handleSendMessage, ht]
    | notOk => simp [handleSendMessage, ht]
    | okReply r =>
      cases r with
      | none => simp [handleSendMessage, ht]
      | some reply =>
        by_cases hr : reply = "" <;> simp [handleSendMessage, ht, hr]
  · cases ai with
    | fetchError => simp [handleSendMessage, ht, List.countP_cons, isPublishUser]
    | notOk => simp [handleSendMessage, ht, List.countP_cons, isPublishUser]
    | okReply r =>
      cases r with
      | none => simp [handleSendMessage, ht, List.countP_cons, isPublishUser]
      | some reply =>
        by_cases hr : reply = "" <;>
          simp [handleSendMessage, ht, hr, List.countP_cons, isPublishUser]
  · cases ai with
    | fetchError => simp [handleSendMessage, ht, List.countP_cons, isCallAI]
    | notOk => simp [handleSendMessage, ht, List.countP_cons, isCallAI]
    | okReply r =>
      cases r with
      | none => simp [handleSendMessage, ht, List.countP_cons, isCallAI]
      | some reply =>
        by_cases hr : reply = "" <;>
          simp [handleSendMessage, ht, hr, List.countP_cons, isCallAI]

/-- Witness for C9 (amended) at a concrete input with the non-empty
hypothesis discharged. -/
theorem claim_c9_send_failures_witness :
    handleSendMessage "hi" "u" true true true AiOutcome.notOk false =
      ([.publishUser "hi" "u", .alertUser], "hi") := by
  have h := (claim_c9_send_failures "hi" "u" AiOutcome.notOk false (by decide)).1
  exact h

/-- Claim C3: for every upstream transport outcome — a non-ok HTTP
status (with distinct fallback text for 401/403, 429, >= 500 and the
generic class), expiry of the 30-second bounded wait, or a network
failure — the route responds with status 200 and the typed fallback
string, never propagating the upstream status or an error. -/
theorem claim_c3_transport_fallbacks (s : String) (mi : Nat) (parsed : Option Json)
    (hs : jsTrim s ≠ "") :
    AiReply.POST (.valid (.str s)) true mi .timeout parsed = ⟨200, timeoutMsg⟩
    ∧ AiReply.POST (.valid (.str s)) true mi .netError parsed = ⟨200, networkUnreachableMsg⟩
    ∧ (∀ st body, st < 200 ∨ 299 < st →
        AiReply.POST (.valid (.str s)) true mi (.resp st body) parsed =
          ⟨200, httpErrorMessage st⟩)
    ∧ (httpErrorMessage 401 = authFailedMsg ∧ httpErrorMessage 403 = authFailedMsg
        ∧ httpErrorMessage 429 = rateLimitMsg
        ∧ (∀ st, 500 ≤ st → httpErrorMessage st = serverIssuesMsg)
        ∧ (∀ st, st ≠ 401 → st ≠ 403 → st ≠ 429 → st < 500 →
            httpErrorMessage st = unavailableMsg))
    ∧ [authFailedMsg, rateLimitMsg, serverIssuesMsg, unavailableMsg, timeoutMsg,
        networkUnreachableMsg].Nodup := by
  refine ⟨?_, ?_, ?_,
    ⟨by decide, by decide, by decide, httpErrorMessage_server, httpErrorMessage_generic⟩,
    by decide⟩
  · simp [AiReply.POST, hs, upstreamRespond]
  · simp [AiReply.POST, hs, upstreamRespond]
  · intro st body h
    simp [AiReply.POST, hs, upstreamRespond, h]

/-- Witness for C3 at the concrete rate-limited status 429. -/
theorem claim_c3_transport_fallbacks_witness :
    AiReply.POST (.valid (.str "hi")) true 0 (.resp 429 "") none = ⟨200, rateLimitMsg⟩ := by
  have h := (claim_c3_transport_fallbacks "hi" 0 none (by decide)).2.2.1 429 "" (by omega)
  rw [h]
  decide

/-- Counterexample to claim C5 as stated: for the success-status
non-JSON body with a trailing space, the route returns the trimmed
body, not the raw body. -/
theorem claim_c5_counterexample :
    AiReply.POST (.valid (.str "hi")) true 0 (.resp 200 "plain text ") none
      = ⟨200, "plain text"⟩
    ∧ ("plain text" : String) ≠ "plain text " := by
  constructor
  · rfl
  · decide

/-- Claim C5 (amended): for every success-status upstream response
whose body is non-blank and not parseable as JSON, the route treats the
raw body as literal text and returns its trimmed form as the reply; in
particular the non-JSON body plain text yields the reply plain text. -/
theorem claim_c5_raw_text_fallback (s body : String) (mi st : Nat)
    (hs : jsTrim s ≠ "") (hok : ¬(st < 200 ∨ 299 < st)) (hb : jsTrim body ≠ "") :
    AiReply.POST (.valid (.str s)) true mi (.resp st body) none = ⟨200, jsTrim body⟩
    ∧ AiReply.POST (.valid (.str "hi")) true 0 (.resp 200 "plain text") none
      = ⟨200, "plain text"⟩ := by
  constructor
  · have h1 : AiReply.POST (.valid (.str s)) true mi (.resp st body) none =
        extractAndRespond (parsedData none body) := by
      simp [AiReply.POST, hs, upstreamRespond, hok, hb]
    rw [h1]
    have hbody : body ≠ "" := by
      intro he
      apply hb
      rw [he]
      rfl
    have h2 : extractReply (parsedData none body) = .json (.str body) := by
      simp only [parsedData]
      exact extractReply_rawText body hbody
    exact extractAndRespond_acceptable _ _ h2 hb
  · rfl

/-- Witness for C5 (amended) at the claim's concrete body. -/
theorem claim_c5_raw_text_fallback_witness :
    AiReply.POST (.valid (.str "hi")) true 0 (.resp 200 "plain text") none
      = ⟨200, "plain text"⟩ := by
  exact (claim_c5_raw_text_fallback "hi" "plain text" 0 200
    (by decide) (by omega) (by decide)).2

/-- Claim C10: when the backend key is absent the token route answers
500 with a structured error object and never invokes the
credential-minting primitive; when the minting call fails (which
includes the vendor SDK's internal request timeout) it answers 500 with
a structured error object; on success it answers 200 with the minted
token request, and the parameters handed to the minting call scope it
to the single fixed channel with exactly the capability set subscribe,
publish, presence, history. -/
theorem claim_c10_token_issuer {α : Type} (cid : Option String)
    (mint : TokenParams → Except Unit α) :
    (AblyToken.GET none cid mint = ⟨500, .error "Ably API Key is not configured", none⟩)
    ∧ (∀ key, mint (routeTokenParams cid) = .error () →
        AblyToken.GET (some key) cid mint =
          ⟨500, .error "Failed to generate token", some (routeTokenParams cid)⟩)
    ∧ (∀ key t, mint (routeTokenParams cid) = .ok t →
        AblyToken.GET (some key) cid mint = ⟨200, .token t, some (routeTokenParams cid)⟩)
    ∧ (routeTokenParams cid).capability =
        [("chat:general", ["subscribe", "publish", "presence", "history"])] := by
  refine ⟨rfl, ?_, ?_, rfl⟩
  · intro key hm
    simp [AblyToken.GET, hm]
  · intro key t hm
    simp [AblyToken.GET, hm]

/-- Witness for C10 at a concrete successful minting call. -/
theorem claim_c10_token_issuer_witness :
    AblyToken.GET (α := Nat) (some "key") (some "alice") (fun _ => .ok 7) =
      ⟨200, .token 7, some (routeTokenParams (some "alice"))⟩ := by
  exact (claim_c10_token_issuer (α := Nat) (some "alice") (fun _ => .ok 7)).2.2.1 "key" 7 rfl

end AmanaChat
